import Mathlib

/-
A shallow embedding of src/Uber-Clone/backend/controllers/user.controller.js.

The controller delegates to `userModel` (Mongoose document model),
`userService.createUser`, and `blacklistedTokenModel`; those files are not
part of the repository snapshot, so the document store is modelled explicitly
(a list of user records plus a list of blacklisted token strings) and the
cryptographic primitives (bcrypt hashing/compare, JWT signing) are abstracted
into an environment of opaque-but-total functions, universally quantified in
every theorem.
-/

/-- A persisted user record in the document store (the `users` collection).
The `password` field always holds the stored (hashed) password. -/
structure User where
  fullname : String
  email : String
  password : String
  id : String
deriving DecidableEq

/-- A user document as returned by a query and serialised into a JSON
response. The `password` field is `none` when the password field was not
selected in the query (Mongoose `select: false` default, cf. the source
comment on line 65: the password field must be selected explicitly), and
`some h` when the stored hash `h` is included in the document. -/
structure UserDoc where
  fullname : String
  email : String
  id : String
  password : Option String
deriving DecidableEq

/-- The document store: the `users` collection and the blacklisted-token
collection (each blacklisted token is a string). -/
structure Store where
  users : List User
  blacklist : List String
deriving DecidableEq

/-- An incoming Express request, restricted to the fields the four handlers
read: the `express-validator` result attached by the validation middleware
(`validationResult(req)`, a list of validation error strings, empty when
validation passed), the body fields `fullname`, `email`, `password`, the
`token` cookie (`req.cookies.token`, `none` when absent), the
`Authorization` header (`req.headers.authorization`), and the authenticated
user id set by upstream auth middleware (`req.user.id`). -/
structure Request where
  validationErrors : List String
  fullname : String
  email : String
  password : String
  cookieToken : Option String
  authorizationHeader : Option String
  userId : String
deriving DecidableEq

/-- The JSON body of a response: a validation-errors array
(`{ errors: ... }`), a message object (`{ message: ... }`), a token plus a
user document (`{ token, user }`), or a bare user document (`{ user }`). -/
inductive Body where
  | errors (errs : List String)
  | message (msg : String)
  | tokenUser (token : String) (user : UserDoc)
  | userOnly (user : UserDoc)
deriving DecidableEq

/-- An HTTP response: status code and JSON body. -/
structure Response where
  status : Nat
  body : Body
deriving DecidableEq

/-- The environment of external primitives used by the handlers:
bcrypt-style hashing (`userModel.hashPassword`), JWT-style token issuance
(`user.generateAuthToken()`, a method of the user document), bcrypt-style
comparison (`user.comparePassword(password)`, taking the supplied plaintext
and the stored hash), and the identifier the store assigns to a newly
created user. All are opaque total functions. -/
structure Env where
  hashPassword : String → String
  generateAuthToken : UserDoc → String
  comparePassword : String → String → Bool
  newId : String

/-- `userModel.findOne({ email })`: the first stored user whose email
matches. -/
def findOneByEmail (st : Store) (email : String) : Option User :=
  st.users.find? (fun u => u.email == email)

/-- `userModel.exists({ email })`: whether some stored user has this
email. -/
def userExists (st : Store) (email : String) : Bool :=
  st.users.any (fun u => u.email == email)

/-- `.select("+password")` applied to a found user: the resulting document
includes the stored password hash (source comment, line 65: "+ select
includes the password field in the result"). -/
def selectPlusPassword (u : User) : UserDoc :=
  ⟨u.fullname, u.email, u.id, some u.password⟩

/-- Modelled from the spec: `userService.createUser`
(src/Uber-Clone/backend/services/user.service.js is not in the repository
snapshot). Per the spec, registration "persists user" and its success
response carries a "user object (no password field exposed)": the record
stored in the `users` collection holds the hashed password, while the
document handed back for the response does not include the password
field. -/
def createUser (env : Env) (st : Store) (fullname email hashed : String) :
    UserDoc × Store :=
  (⟨fullname, email, env.newId, none⟩,
   ⟨st.users ++ [⟨fullname, email, hashed, env.newId⟩], st.blacklist⟩)

/-- Modelled from the spec: `userModel.findById`
(src/Uber-Clone/backend/models/user.model.js is not in the repository
snapshot). A standard document-store lookup by identifier; the password
field is not selected (it requires explicit `+password` selection, cf. the
source comment on line 65), so the returned document carries no
password. -/
def findById (st : Store) (id : String) : Option UserDoc :=
  (st.users.find? (fun u => u.id == id)).map
    (fun u => ⟨u.fullname, u.email, u.id, none⟩)

/-- `blacklistedTokenModel.exists({ token })`. -/
def tokenBlacklisted (st : Store) (token : String) : Bool :=
  st.blacklist.contains token

/-- JavaScript `a || b` on possibly-undefined strings: `none` is
`undefined`; the empty string is falsy, so it also falls through to `b`. -/
def jsOr (a b : Option String) : Option String :=
  match a with
  | none => b
  | some s => if s = "" then b else some s

/-- JavaScript truthiness of a possibly-undefined string: `undefined` and
`""` are falsy. -/
def isTruthy (a : Option String) : Bool :=
  match a with
  | none => false
  | some s => s != ""

/-- Splitting a character list on the space character, keeping empty
components, accumulating the current component in reverse. -/
def splitOnSpaceAux : List Char → List Char → List (List Char)
  | [], acc => [acc.reverse]
  | c :: cs, acc =>
    if c = ' ' then acc.reverse :: splitOnSpaceAux cs []
    else splitOnSpaceAux cs (c :: acc)

/-- JavaScript `s.split(" ")`: components between single-space separators,
empty components kept, `[""]` on the empty string. -/
def jsSplitSpace (s : String) : List String :=
  (splitOnSpaceAux s.data []).map (fun l => ⟨l⟩)

/-- `req.headers.authorization?.split(" ")[1]`: the second component of the
header split on the space character, `none` when the header is absent or
has no second component. -/
def headerToken (req : Request) : Option String :=
  match req.authorizationHeader with
  | none => none
  | some h => (jsSplitSpace h).get? 1

/-- `req.cookies.token || req.headers.authorization?.split(" ")[1]`
(line 120 of the controller). -/
def extractToken (req : Request) : Option String :=
  jsOr req.cookieToken (headerToken req)

/-- `registerUser` (lines 11-46): validation check, duplicate-email check,
hash, create, token, 201. Returns the response together with the updated
store. -/
def registerUser (env : Env) (st : Store) (req : Request) :
    Response × Store :=
  if req.validationErrors ≠ [] then
    (⟨400, Body.errors req.validationErrors⟩, st)
  else if userExists st req.email then
    (⟨400, Body.message "User with this email already exists"⟩, st)
  else
    let hashedPassword := env.hashPassword req.password
    let created := createUser env st req.fullname req.email hashedPassword
    let token := env.generateAuthToken created.1
    (⟨201, Body.tokenUser token created.1⟩, created.2)

/-- `loginUser` (lines 53-92): validation check, lookup with
`.select("+password")`, password comparison, token issuance, blacklist
check on the freshly generated token, 200. Reads but never writes the
store. -/
def loginUser (env : Env) (st : Store) (req : Request) : Response :=
  if req.validationErrors ≠ [] then
    ⟨400, Body.errors req.validationErrors⟩
  else
    match findOneByEmail st req.email with
    | none => ⟨401, Body.message "Invalid email"⟩
    | some u =>
      if !(env.comparePassword req.password u.password) then
        ⟨401, Body.message "Invalid password"⟩
      else
        let token := env.generateAuthToken (selectPlusPassword u)
        if tokenBlacklisted st token then
          ⟨401, Body.message "Token is blacklisted, please login again"⟩
        else
          ⟨200, Body.tokenUser token (selectPlusPassword u)⟩

/-- `getUserProfile` (lines 99-110): lookup by `req.user.id`, 404 when
absent, else 200 with the user document. -/
def getUserProfile (st : Store) (req : Request) : Response :=
  match findById st req.userId with
  | none => ⟨404, Body.message "User not found"⟩
  | some user => ⟨200, Body.userOnly user⟩

/-- `logoutUser` (lines 117-135): token from cookie or bearer header, 401
when falsy, else insert into the blacklist collection, clear the `token`
cookie, 200. Returns the response, the updated store, and whether the
cookie was cleared (`res.clearCookie("token")`). -/
def logoutUser (st : Store) (req : Request) : Response × Store × Bool :=
  match extractToken req with
  | none => (⟨401, Body.message "Unauthorised"⟩, st, false)
  | some t =>
    if t = "" then
      (⟨401, Body.message "Unauthorised"⟩, st, false)
    else
      (⟨200, Body.message "User logged out successfully"⟩,
       ⟨st.users, st.blacklist ++ [t]⟩, true)

/-
Fallible view of the same handlers, for the try/catch structure. Every
awaited external call may reject (throw): the environment returns
`Except String` results, the `try` block of each handler is an `Except`
computation, and the `catch` clause maps any thrown error to the generic
500 response. Store updates happen inside the opaque environment here;
these definitions expose only the response.
-/

/-- The external calls of the four handlers, each of which may throw. -/
structure FEnv where
  userExists : String → Except String Bool
  hashPassword : String → Except String String
  createUser : String → String → String → Except String UserDoc
  generateAuthToken : UserDoc → Except String String
  findOneSelectPassword : String → Except String (Option UserDoc)
  findById : String → Except String (Option UserDoc)
  comparePassword : String → String → Except String Bool
  blacklistExists : String → Except String Bool
  blacklistCreate : String → Except String Unit

/-- The `try` block of `registerUser` (lines 12-41). -/
def registerBody (env : FEnv) (req : Request) : Except String Response := do
  if req.validationErrors ≠ [] then
    return ⟨400, Body.errors req.validationErrors⟩
  let doesUserExist ← env.userExists req.email
  if doesUserExist then
    return ⟨400, Body.message "User with this email already exists"⟩
  let hashedPassword ← env.hashPassword req.password
  let user ← env.createUser req.fullname req.email hashedPassword
  let token ← env.generateAuthToken user
  return ⟨201, Body.tokenUser token user⟩

/-- The `try` block of `loginUser` (lines 54-87). -/
def loginBody (env : FEnv) (req : Request) : Except String Response := do
  if req.validationErrors ≠ [] then
    return ⟨400, Body.errors req.validationErrors⟩
  let found ← env.findOneSelectPassword req.email
  match found with
  | none => return ⟨401, Body.message "Invalid email"⟩
  | some user =>
    let isMatch ← env.comparePassword req.password (user.password.getD "")
    if !isMatch then
      return ⟨401, Body.message "Invalid password"⟩
    let token ← env.generateAuthToken user
    let isBlacklisted ← env.blacklistExists token
    if isBlacklisted then
      return ⟨401, Body.message "Token is blacklisted, please login again"⟩
    return ⟨200, Body.tokenUser token user⟩

/-- The `try` block of `getUserProfile` (lines 100-105). -/
def profileBody (env : FEnv) (req : Request) : Except String Response := do
  let found ← env.findById req.userId
  match found with
  | none => return ⟨404, Body.message "User not found"⟩
  | some user => return ⟨200, Body.userOnly user⟩

/-- The `try` block of `logoutUser` (lines 118-130). -/
def logoutBody (env : FEnv) (req : Request) : Except String Response := do
  match extractToken req with
  | none => return ⟨401, Body.message "Unauthorised"⟩
  | some t =>
    if t = "" then
      return ⟨401, Body.message "Unauthorised"⟩
    let _ ← env.blacklistCreate t
    return ⟨200, Body.message "User logged out successfully"⟩

/-- The `catch` clause every handler wraps its body in (e.g. lines 42-45):
a thrown error becomes the generic 500 response. -/
def tryCatch500 (body : Except String Response) : Response :=
  match body with
  | Except.ok r => r
  | Except.error _ => ⟨500, Body.message "Internal server error"⟩

/-- `registerUser` as a total function of its fallible environment. -/
def registerUserF (env : FEnv) (req : Request) : Response :=
  tryCatch500 (registerBody env req)

/-- `loginUser` as a total function of its fallible environment. -/
def loginUserF (env : FEnv) (req : Request) : Response :=
  tryCatch500 (loginBody env req)

/-- `getUserProfile` as a total function of its fallible environment. -/
def getUserProfileF (env : FEnv) (req : Request) : Response :=
  tryCatch500 (profileBody env req)

/-- `logoutUser` as a total function of its fallible environment. -/
def logoutUserF (env : FEnv) (req : Request) : Response :=
  tryCatch500 (logoutBody env req)

/-
Concrete sample data used by the witness theorems.
-/

/-- A sample stored user whose plaintext password under `env0` is "pw". -/
def alice : User :=
  ⟨"Alice A", "a@x.com", "h:pw", "u1"⟩

/-- A sample store holding `alice` and an empty blacklist. -/
def st1 : Store :=
  ⟨[alice], []⟩

/-- A sample environment: hashing prefixes "h:", tokens are "t:" plus the
document id, comparison re-hashes and compares. -/
def env0 : Env :=
  ⟨fun p => "h:" ++ p, fun d => "t:" ++ d.id,
   fun p h => h == "h:" ++ p, "u2"⟩

/-- A registration request whose email is already taken in `st1`. -/
def regReqDup : Request :=
  ⟨[], "Bob B", "a@x.com", "pw2", none, none, ""⟩

/-- A registration request with a fresh email. -/
def regReqNew : Request :=
  ⟨[], "Bob B", "b@x.com", "pw2", none, none, ""⟩

/-- A login request for a nonexistent email. -/
def loginReqNoUser : Request :=
  ⟨[], "", "c@x.com", "pw", none, none, ""⟩

/-- A login request with valid credentials for `alice` under `env0`. -/
def loginReqGood : Request :=
  ⟨[], "", "a@x.com", "pw", none, none, ""⟩

/-- The same credentials as `loginReqGood` but carrying a client-supplied
token in both the cookie and the bearer header. -/
def loginReqGoodTok : Request :=
  ⟨[], "", "a@x.com", "pw", some "old", some "Bearer old", ""⟩

/-- A logout request carrying both an empty `token` cookie and a bearer
header. -/
def logoutReqBoth : Request :=
  ⟨[], "", "", "", some "", some "Bearer abc", ""⟩

/-- A logout request carrying a nonempty `token` cookie and a bearer
header. -/
def logoutReqCookie : Request :=
  ⟨[], "", "", "", some "ck", some "Bearer abc", ""⟩

/-- A profile request for an id present in `st1`. -/
def profileReqGood : Request :=
  ⟨[], "", "", "", none, none, "u1"⟩

/-- A fallible environment every call of which throws. -/
def envFail : FEnv :=
  ⟨fun _ => Except.error "db down", fun _ => Except.error "db down",
   fun _ _ _ => Except.error "db down", fun _ => Except.error "db down",
   fun _ => Except.error "db down", fun _ => Except.error "db down",
   fun _ _ => Except.error "db down", fun _ => Except.error "db down",
   fun _ => Except.error "db down"⟩

/-
Theorems. Each claim gets one theorem; theorems with hypotheses get a
closed witness applying them at the concrete sample data above.
-/

/-- Claim C1: a registration request whose email already exists in the user
store gets status 400, leaves the store unchanged, and the outcome is
independent of the environment (so neither the hashing primitive nor the
user-creation service can influence it); when validation passed, the body
is the duplicate-email message. -/
theorem registerUser_existing_email (env env2 : Env) (st : Store)
    (req : Request) (h : userExists st req.email = true) :
    (registerUser env st req).2 = st ∧
    (registerUser env st req).1.status = 400 ∧
    registerUser env st req = registerUser env2 st req ∧
    (req.validationErrors = [] →
      (registerUser env st req).1.body =
        Body.message "User with this email already exists") := by
  by_cases hv : req.validationErrors = []
  · simp [registerUser, hv, h]
  · simp [registerUser, hv, h]

/-- Witness for C1 at `st1` and `regReqDup`. -/
theorem registerUser_existing_email_witness :
    userExists st1 regReqDup.email = true ∧
    ((registerUser env0 st1 regReqDup).2 = st1 ∧
     (registerUser env0 st1 regReqDup).1.status = 400 ∧
     registerUser env0 st1 regReqDup = registerUser env0 st1 regReqDup ∧
     (regReqDup.validationErrors = [] →
       (registerUser env0 st1 regReqDup).1.body =
         Body.message "User with this email already exists")) :=
  ⟨by decide, registerUser_existing_email env0 env0 st1 regReqDup (by decide)⟩

/-- Claim C2: a validated registration request with a fresh email hashes
the password, appends exactly one record (holding the hashed password) to
the user store, and returns 201 with a token and a user document whose
password field is absent. -/
theorem registerUser_success (env : Env) (st : Store) (req : Request)
    (hv : req.validationErrors = []) (he : userExists st req.email = false) :
    registerUser env st req =
      (⟨201, Body.tokenUser
          (env.generateAuthToken ⟨req.fullname, req.email, env.newId, none⟩)
          ⟨req.fullname, req.email, env.newId, none⟩⟩,
       ⟨st.users ++ [⟨req.fullname, req.email,
          env.hashPassword req.password, env.newId⟩], st.blacklist⟩) ∧
    (⟨req.fullname, req.email, env.newId, none⟩ : UserDoc).password = none := by
  constructor
  · simp [registerUser, hv, he, createUser]
  · rfl

/-- Witness for C2 at `st1` and `regReqNew`. -/
theorem registerUser_success_witness :
    regReqNew.validationErrors = [] ∧
    userExists st1 regReqNew.email = false ∧
    (registerUser env0 st1 regReqNew =
      (⟨201, Body.tokenUser
          (env0.generateAuthToken ⟨regReqNew.fullname, regReqNew.email, env0.newId, none⟩)
          ⟨regReqNew.fullname, regReqNew.email, env0.newId, none⟩⟩,
       ⟨st1.users ++ [⟨regReqNew.fullname, regReqNew.email,
          env0.hashPassword regReqNew.password, env0.newId⟩], st1.blacklist⟩) ∧
     (⟨regReqNew.fullname, regReqNew.email, env0.newId, none⟩ : UserDoc).password = none) :=
  ⟨rfl, by decide, registerUser_success env0 st1 regReqNew rfl (by decide)⟩

/-- Claim C3: a validated login request is answered with 401 "Invalid
email" when no user has the given email, and with 401 "Invalid password"
when the stored hash does not match the supplied password; in both cases
the full response is a 401 message, so no token and no 200 response is
produced. -/
theorem loginUser_reject (env : Env) (st : Store) (req : Request)
    (hv : req.validationErrors = []) :
    (findOneByEmail st req.email = none →
      loginUser env st req = ⟨401, Body.message "Invalid email"⟩) ∧
    (∀ u, findOneByEmail st req.email = some u →
      env.comparePassword req.password u.password = false →
      loginUser env st req = ⟨401, Body.message "Invalid password"⟩) := by
  constructor
  · intro h
    simp [loginUser, hv, h]
  · intro u h hm
    simp [loginUser, hv, h, hm]

/-- Witness for C3 at `st1` and `loginReqNoUser`. -/
theorem loginUser_reject_witness :
    loginReqNoUser.validationErrors = [] ∧
    findOneByEmail st1 loginReqNoUser.email = none ∧
    loginUser env0 st1 loginReqNoUser = ⟨401, Body.message "Invalid email"⟩ :=
  ⟨rfl, by decide, (loginUser_reject env0 st1 loginReqNoUser rfl).1 (by decide)⟩

/-- Claim C4: a login outcome depends only on the validation result and the
body's email and password — never on a client-supplied token in the cookie
or Authorization header — and, for valid credentials, the blacklist 401 is
taken exactly when the freshly generated token is in the blacklist
collection. -/
theorem loginUser_checks_fresh_token (env : Env) (st : Store)
    (req req2 : Request)
    (h1 : req.validationErrors = req2.validationErrors)
    (h2 : req.email = req2.email) (h3 : req.password = req2.password) :
    loginUser env st req = loginUser env st req2 ∧
    (∀ u, req.validationErrors = [] →
      findOneByEmail st req.email = some u →
      env.comparePassword req.password u.password = true →
      (loginUser env st req =
          ⟨401, Body.message "Token is blacklisted, please login again"⟩ ↔
        tokenBlacklisted st
          (env.generateAuthToken (selectPlusPassword u)) = true)) := by
  constructor
  · simp only [loginUser, h1, h2, h3]
  · intro u hv hf hm
    cases hb : tokenBlacklisted st (env.generateAuthToken (selectPlusPassword u)) with
    | true => simp [loginUser, hv, hf, hm, hb]
    | false => simp [loginUser, hv, hf, hm, hb]

/-- Witness for C4 at `st1`, `loginReqGood` and `loginReqGoodTok`. -/
theorem loginUser_checks_fresh_token_witness :
    loginUser env0 st1 loginReqGood = loginUser env0 st1 loginReqGoodTok ∧
    (loginUser env0 st1 loginReqGood =
        ⟨401, Body.message "Token is blacklisted, please login again"⟩ ↔
      tokenBlacklisted st1
        (env0.generateAuthToken (selectPlusPassword alice)) = true) :=
  ⟨(loginUser_checks_fresh_token env0 st1 loginReqGood loginReqGoodTok
      rfl rfl rfl).1,
   (loginUser_checks_fresh_token env0 st1 loginReqGood loginReqGoodTok
      rfl rfl rfl).2 alice rfl (by decide) (by decide)⟩

/-- Claim C5: when every freshly generated token is absent from the
blacklist collection, the 401 "Token is blacklisted" response is never
produced, and every validated login with matching credentials returns 200
with the token and the user document. -/
theorem loginUser_blacklist_unreachable (env : Env) (st : Store)
    (hfresh : ∀ d : UserDoc,
      tokenBlacklisted st (env.generateAuthToken d) = false) :
    (∀ req, loginUser env st req ≠
      ⟨401, Body.message "Token is blacklisted, please login again"⟩) ∧
    (∀ req u, req.validationErrors = [] →
      findOneByEmail st req.email = some u →
      env.comparePassword req.password u.password = true →
      loginUser env st req =
        ⟨200, Body.tokenUser (env.generateAuthToken (selectPlusPassword u))
          (selectPlusPassword u)⟩) := by
  constructor
  · intro req
    by_cases hv : req.validationErrors = []
    · cases hf : findOneByEmail st req.email with
      | none => simp [loginUser, hv, hf]
      | some u =>
        cases hm : env.comparePassword req.password u.password with
        | true => simp [loginUser, hv, hf, hm, hfresh]
        | false => simp [loginUser, hv, hf, hm]
    · simp [loginUser, hv]
  · intro req u hv hf hm
    simp [loginUser, hv, hf, hm, hfresh]

/-- Witness for C5 at `env0`, `st1` (empty blacklist) and `loginReqGood`. -/
theorem loginUser_blacklist_unreachable_witness :
    (loginUser env0 st1 loginReqGood ≠
      ⟨401, Body.message "Token is blacklisted, please login again"⟩) ∧
    loginUser env0 st1 loginReqGood =
      ⟨200, Body.tokenUser (env0.generateAuthToken (selectPlusPassword alice))
        (selectPlusPassword alice)⟩ :=
  ⟨(loginUser_blacklist_unreachable env0 st1 (fun _ => rfl)).1 loginReqGood,
   (loginUser_blacklist_unreachable env0 st1 (fun _ => rfl)).2 loginReqGood
     alice rfl (by decide) (by decide)⟩

/-- Claim C6: a logout request carrying no usable token in either the
cookie or the Authorization header gets 401 and leaves the blacklist
collection unchanged; a logout request with a nonempty token (from the
cookie, or from the header when the cookie is falsy) inserts that token
into the blacklist collection, clears the cookie, and returns 200. -/
theorem logoutUser_spec (st : Store) (req : Request) :
    ((req.cookieToken = none ∨ req.cookieToken = some "") →
     (headerToken req = none ∨ headerToken req = some "") →
      logoutUser st req = (⟨401, Body.message "Unauthorised"⟩, st, false)) ∧
    (∀ t, t ≠ "" →
      (req.cookieToken = some t ∨
        (isTruthy req.cookieToken = false ∧ headerToken req = some t)) →
      logoutUser st req =
        (⟨200, Body.message "User logged out successfully"⟩,
         ⟨st.users, st.blacklist ++ [t]⟩, true)) := by
  constructor
  · intro hc hh
    rcases hc with hc | hc <;> rcases hh with hh | hh <;>
      simp [logoutUser, extractToken, jsOr, hc, hh]
  · intro t ht hsrc
    rcases hsrc with hc | ⟨hc, hh⟩
    · simp [logoutUser, extractToken, jsOr, hc, ht]
    · cases hck : req.cookieToken with
      | none => simp [logoutUser, extractToken, jsOr, hck, hh, ht]
      | some s =>
        have hs : s = "" := by
          rw [hck] at hc
          simpa [isTruthy] using hc
        simp [logoutUser, extractToken, jsOr, hck, hs, hh, ht]

/-- Witness for C6 at `st1` and `logoutReqCookie`. -/
theorem logoutUser_spec_witness :
    logoutUser st1 logoutReqCookie =
      (⟨200, Body.message "User logged out successfully"⟩,
       ⟨st1.users, st1.blacklist ++ ["ck"]⟩, true) :=
  (logoutUser_spec st1 logoutReqCookie).2 "ck" (by decide) (Or.inl rfl)

/-- Claim C7: a profile request is answered with 404 "User not found"
exactly when no stored user has the authenticated identifier, with 200 and
the user document otherwise, and the status is always one of 404 and
200. -/
theorem getUserProfile_spec (st : Store) (req : Request) :
    (findById st req.userId = none →
      getUserProfile st req = ⟨404, Body.message "User not found"⟩) ∧
    (∀ d, findById st req.userId = some d →
      getUserProfile st req = ⟨200, Body.userOnly d⟩) ∧
    ((getUserProfile st req).status = 404 ∨
      (getUserProfile st req).status = 200) := by
  refine ⟨?_, ?_, ?_⟩
  · intro h
    simp [getUserProfile, h]
  · intro d h
    simp [getUserProfile, h]
  · cases h : findById st req.userId with
    | none =>
      left
      simp [getUserProfile, h]
    | some d =>
      right
      simp [getUserProfile, h]

/-- Witness for C7 at `st1` and `profileReqGood`. -/
theorem getUserProfile_spec_witness :
    getUserProfile st1 profileReqGood =
      ⟨200, Body.userOnly ⟨"Alice A", "a@x.com", "u1", none⟩⟩ :=
  (getUserProfile_spec st1 profileReqGood).2.1
    ⟨"Alice A", "a@x.com", "u1", none⟩ (by decide)

/-- Claim C8: each of the four handlers is a total function that returns
exactly the result of its `try` block when no call throws, and responds
with 500 "Internal server error" whenever some step of the block throws;
no thrown error escapes a handler. -/
theorem handlers_catch_all (env : FEnv) (req : Request) :
    (∀ e, registerBody env req = Except.error e →
      registerUserF env req = ⟨500, Body.message "Internal server error"⟩) ∧
    (∀ r, registerBody env req = Except.ok r → registerUserF env req = r) ∧
    (∀ e, loginBody env req = Except.error e →
      loginUserF env req = ⟨500, Body.message "Internal server error"⟩) ∧
    (∀ r, loginBody env req = Except.ok r → loginUserF env req = r) ∧
    (∀ e, profileBody env req = Except.error e →
      getUserProfileF env req = ⟨500, Body.message "Internal server error"⟩) ∧
    (∀ r, profileBody env req = Except.ok r → getUserProfileF env req = r) ∧
    (∀ e, logoutBody env req = Except.error e →
      logoutUserF env req = ⟨500, Body.message "Internal server error"⟩) ∧
    (∀ r, logoutBody env req = Except.ok r → logoutUserF env req = r) := by
  refine ⟨?_, ?_, ?_, ?_, ?_, ?_, ?_, ?_⟩ <;> intro x h <;>
    simp [registerUserF, loginUserF, getUserProfileF, logoutUserF,
      tryCatch500, h]

/-- Witness for C8: a fallible environment whose every call throws makes
all four handlers answer 500. -/
theorem handlers_catch_all_witness :
    registerBody envFail regReqNew = Except.error "db down" ∧
    registerUserF envFail regReqNew =
      ⟨500, Body.message "Internal server error"⟩ ∧
    loginUserF envFail loginReqGood =
      ⟨500, Body.message "Internal server error"⟩ ∧
    getUserProfileF envFail profileReqGood =
      ⟨500, Body.message "Internal server error"⟩ ∧
    logoutUserF envFail logoutReqCookie =
      ⟨500, Body.message "Internal server error"⟩ :=
  ⟨rfl,
   (handlers_catch_all envFail regReqNew).1 "db down" rfl,
   (handlers_catch_all envFail loginReqGood).2.2.1 "db down" rfl,
   (handlers_catch_all envFail profileReqGood).2.2.2.2.1 "db down" rfl,
   (handlers_catch_all envFail logoutReqCookie).2.2.2.2.2.2.1 "db down" rfl⟩

/-- Counterexample to claim C9 as stated: `logoutReqBoth` carries both a
`token` cookie (with empty value) and an Authorization header, yet the
extracted token is the header's bearer token "abc", not the cookie value —
because `||` falls through on the empty (falsy) cookie string, presence of
the cookie alone does not give it precedence. -/
theorem logout_cookie_precedence_cex :
    logoutReqBoth.cookieToken = some "" ∧
    extractToken logoutReqBoth ≠ logoutReqBoth.cookieToken ∧
    extractToken logoutReqBoth = some "abc" ∧
    (logoutUser st1 logoutReqBoth).2.1.blacklist = ["abc"] := by
  refine ⟨rfl, ?_, ?_, ?_⟩ <;> decide

/-- Claim C9 as amended: the cookie value takes precedence over the header
whenever it is truthy (nonempty); when the cookie is absent or empty, the
token falls back to the second space-separated component of the
Authorization header. -/
theorem logout_token_extraction (st : Store) (req : Request) :
    (∀ t, req.cookieToken = some t → t ≠ "" →
      extractToken req = some t ∧
      (logoutUser st req).2.1 = ⟨st.users, st.blacklist ++ [t]⟩) ∧
    ((req.cookieToken = none ∨ req.cookieToken = some "") →
      extractToken req = headerToken req) ∧
    (∀ h, req.authorizationHeader = some h →
      headerToken req = (jsSplitSpace h).get? 1) := by
  refine ⟨?_, ?_, ?_⟩
  · intro t hc ht
    constructor
    · simp [extractToken, jsOr, hc, ht]
    · simp [logoutUser, extractToken, jsOr, hc, ht]
  · intro hc
    rcases hc with hc | hc <;> simp [extractToken, jsOr, hc]
  · intro h hh
    simp [headerToken, hh]

/-- Witness for amended C9 at `st1` and `logoutReqCookie`: the nonempty
cookie value "ck" wins over the bearer header "abc". -/
theorem logout_token_extraction_witness :
    extractToken logoutReqCookie = some "ck" ∧
    (logoutUser st1 logoutReqCookie).2.1 =
      ⟨st1.users, st1.blacklist ++ ["ck"]⟩ :=
  (logout_token_extraction st1 logoutReqCookie).1 "ck" rfl (by decide)

/-- Claim C10: every 200 login response carries the user document fetched
with the password field explicitly selected, so its password field holds
the stored hash — the response exposes the hashed password. -/
theorem loginUser_success_exposes_hash (env : Env) (st : Store)
    (req : Request) (h200 : (loginUser env st req).status = 200) :
    ∃ u, findOneByEmail st req.email = some u ∧
      loginUser env st req =
        ⟨200, Body.tokenUser (env.generateAuthToken (selectPlusPassword u))
          (selectPlusPassword u)⟩ ∧
      (selectPlusPassword u).password = some u.password := by
  by_cases hv : req.validationErrors = []
  · cases hf : findOneByEmail st req.email with
    | none => simp [loginUser, hv, hf] at h200
    | some u =>
      cases hm : env.comparePassword req.password u.password with
      | false => simp [loginUser, hv, hf, hm] at h200
      | true =>
        cases hb : tokenBlacklisted st
            (env.generateAuthToken (selectPlusPassword u)) with
        | true => simp [loginUser, hv, hf, hm, hb] at h200
        | false =>
          exact ⟨u, rfl, by simp [loginUser, hv, hf, hm, hb], rfl⟩
  · simp [loginUser, hv] at h200

/-- Witness for C10 at `env0`, `st1` and `loginReqGood`. -/
theorem loginUser_success_exposes_hash_witness :
    ∃ u, findOneByEmail st1 loginReqGood.email = some u ∧
      loginUser env0 st1 loginReqGood =
        ⟨200, Body.tokenUser (env0.generateAuthToken (selectPlusPassword u))
          (selectPlusPassword u)⟩ ∧
      (selectPlusPassword u).password = some u.password :=
  loginUser_success_exposes_hash env0 st1 loginReqGood (by decide)
